import Mathlib

/-!
Shallow embedding of `src/tbot.py` (CAAAB/voiceclone): the voice-profile
registration and selection state machine, the catalog listing, and the
message handlers, together with theorems checking the specification's
claims about them.

Modelling conventions:
* Telegram user ids are natural numbers.
* The two module-level dicts `user_selected_voice` and
  `awaiting_voice_upload` are modelled as functions `UserId → Option String`.
* The catalog directory `VOICE_DIR` is modelled as a flag for
  `VOICE_DIR.exists()`, a flag for whether `iterdir()` succeeds (an
  `OSError` is raised when it is false), and a list of directory entries
  in enumeration order.
* Byte payloads and fake audio are modelled as their decoded strings.
* Each handler returns the new state together with an inductive result
  describing which reply the user received.
-/

/-- Telegram numeric user identifiers. -/
abbrev UserId := Nat

/-- One entry of the voice directory: its filename and whether it is a
regular file (false models a subdirectory). -/
structure DirEntry where
  name : String
  isFile : Bool
  deriving DecidableEq, Repr

/-- The state of the catalog directory `VOICE_DIR`.  `present` models
`VOICE_DIR.exists()`; `accessible` models whether `VOICE_DIR.iterdir()`
succeeds (it raises `OSError` when false); `entries` is the directory
content in enumeration order. -/
structure VoiceDir where
  present : Bool
  accessible : Bool
  entries : List DirEntry
  deriving DecidableEq, Repr

/-- The in-memory state of the bot together with the catalog directory:
the dicts `user_selected_voice` and `awaiting_voice_upload` of tbot.py
and the filesystem state of `VOICE_DIR`. -/
structure BotState where
  user_selected_voice : UserId → Option String
  awaiting_voice_upload : UserId → Option String
  voiceDir : VoiceDir

/-- Python dict assignment `m[k] = v`. -/
def mapSet (m : UserId → Option String) (k : UserId) (v : String) : UserId → Option String :=
  fun u => if u = k then some v else m u

/-- Python dict removal `m.pop(k)` (the removed value is read off the
original map by the caller). -/
def mapPop (m : UserId → Option String) (k : UserId) : UserId → Option String :=
  fun u => if u = k then none else m u

/-- `DEFAULT_VOICE_NAME = "default"` (tbot.py line 25). -/
def DEFAULT_VOICE_NAME : String := "default"

/-- `CALLBACK_PREFIX_VOICE = "select_voice:"` (tbot.py line 28). -/
def CALLBACK_PREFIX_VOICE : String := "select_voice:"

/-- Index, counted from the front, of the last occurrence of a dot in a
list of characters, if any. -/
def lastDotIdx : List Char → Option Nat
  | [] => none
  | c :: cs =>
    match lastDotIdx cs with
    | some j => some (j + 1)
    | none => if c = '.' then some 0 else none

/-- `pathlib.PurePath.suffix` of a filename: with `i = name.rfind('.')`,
the slice `name[i:]` when `0 < i < len(name) - 1`, else the empty string.
A missing dot (rfind gives -1) is modelled by the sentinel 0, which fails
`0 < i` exactly as -1 does. -/
def pySuffix (name : String) : String :=
  let cs := name.toList
  let i := (lastDotIdx cs).getD 0
  if 0 < i ∧ i < cs.length - 1 then (cs.drop i).asString else ""

/-- `pathlib.PurePath.stem` of a filename: the filename without its final
extension, under the same dot-position conditions as `pySuffix`. -/
def pyStem (name : String) : String :=
  let cs := name.toList
  let i := (lastDotIdx cs).getD 0
  if 0 < i ∧ i < cs.length - 1 then (cs.take i).asString else name

/-- Character-wise ASCII lowering of a string; Python's `str.lower` agrees
with it on every string whose lowering is compared against the ASCII
literal ".wav". -/
def strLower (s : String) : String :=
  (s.toList.map Char.toLower).asString

/-- `get_available_voices` (tbot.py lines 53-66): returns the stems of the
regular files of `VOICE_DIR` whose suffix is `.wav` case-insensitively; an
absent directory or an `OSError` while listing yields the empty list and
never propagates to the caller. -/
def get_available_voices (d : VoiceDir) : List String :=
  if d.present = false then []
  else if d.accessible = false then []
  else
    (d.entries.filter fun e => e.isFile && decide (strLower (pySuffix e.name) = ".wav")).map
      fun e => pyStem e.name

/-- Python's regex `\w` on `str` is Unicode-aware: it matches underscore
and every Unicode alphanumeric character (`Py_UNICODE_ISALNUM`), not only
ASCII.  This table is exact on the code points U+0000 to U+00FF (ASCII and
Latin-1 Supplement): ASCII digits, letters and underscore, the Latin-1
letters U+00C0-U+00D6, U+00D8-U+00F6, U+00F8-U+00FF, the letters
U+00AA, U+00B5, U+00BA, and the numeric characters U+00B2, U+00B3,
U+00B9, U+00BC, U+00BD, U+00BE.  Theorems about sanitization are stated
on inputs within this exact range. -/
def pyIsWordChar (c : Char) : Bool :=
  let n := c.toNat
  decide ((0x30 ≤ n ∧ n ≤ 0x39) ∨ (0x41 ≤ n ∧ n ≤ 0x5A) ∨ (0x61 ≤ n ∧ n ≤ 0x7A) ∨ n = 0x5F ∨
    n = 0xAA ∨ n = 0xB2 ∨ n = 0xB3 ∨ n = 0xB5 ∨ n = 0xB9 ∨ n = 0xBA ∨
    n = 0xBC ∨ n = 0xBD ∨ n = 0xBE ∨
    (0xC0 ≤ n ∧ n ≤ 0xD6) ∨ (0xD8 ≤ n ∧ n ≤ 0xF6) ∨ (0xF8 ≤ n ∧ n ≤ 0xFF))

/-- One pass of `re.sub(r'[^\w\-]', '', name)`: every character that is
neither a word character nor a hyphen is deleted. -/
def pySubNonWord : List Char → List Char
  | [] => []
  | c :: cs => if pyIsWordChar c || decide (c = '-') then c :: pySubNonWord cs else pySubNonWord cs

/-- `sanitize_voice_name` (tbot.py lines 68-72): delete every character
outside `[\w\-]`, then keep the first 50 characters (`name[:50]`). -/
def sanitize_voice_name (name : String) : String :=
  ((pySubNonWord name.toList).take 50).asString

/-- Modelled from the spec's sanitization rule, for comparison with the
source's `sanitize_voice_name`: strip every character that is not an
ASCII letter, ASCII digit, underscore, or hyphen; truncate to at most 50
characters. -/
def sanitizeSpecAscii (name : String) : String :=
  ((name.toList.filter fun c => c.isAlpha || c.isDigit || decide (c = '_') || decide (c = '-')).take
    50).asString

/-- The stubbed `tts` (tbot.py lines 43-51): the returned fake audio is
the bytes of `f"FAKE_AUDIO_FOR_{voice_name}"`, modelled as the string
itself. -/
def tts (voice_name : String) (_text : String) : String :=
  "FAKE_AUDIO_FOR_" ++ voice_name

/-- `(VOICE_DIR / filename).exists()`: the directory is present and holds
an entry (regular file or subdirectory) with exactly this name. -/
def pathExists (d : VoiceDir) (filename : String) : Bool :=
  d.present && d.entries.any fun e => decide (e.name = filename)

/-- Which reply `newvoice_command` produces. -/
inductive RegisterResult where
  | usage
  | invalidName
  | alreadyExists (name : String)
  | ok (name : String)
  deriving DecidableEq, Repr

/-- `newvoice_command` (tbot.py lines 98-121): with no arguments reply
with usage; otherwise sanitize the space-joined arguments; an empty
result is rejected as invalid; a name whose exact file
`VOICE_DIR/<name>.wav` already exists is rejected as taken; otherwise
record the pending registration in `awaiting_voice_upload`. -/
def newvoice_command (st : BotState) (user : UserId) (args : List String) :
    BotState × RegisterResult :=
  if args = [] then (st, .usage)
  else
    let voice_name := sanitize_voice_name (String.intercalate " " args)
    if voice_name = "" then (st, .invalidName)
    else if pathExists st.voiceDir (voice_name ++ ".wav") then (st, .alreadyExists voice_name)
    else
      ({ st with awaiting_voice_upload := mapSet st.awaiting_voice_upload user voice_name },
        .ok voice_name)

/-- Which reply `button_handler` produces. -/
inductive ButtonResult where
  | voiceSet (name : String)
  | unknownAction
  deriving DecidableEq, Repr

/-- `button_handler` (tbot.py lines 125-138): callback data starting with
`select_voice:` stores the rest of the data as the user's selected voice;
anything else is answered with an unknown-action message. -/
def button_handler (st : BotState) (user : UserId) (data : String) : BotState × ButtonResult :=
  if CALLBACK_PREFIX_VOICE.toList.isPrefixOf data.toList then
    let voice_name := (data.toList.drop CALLBACK_PREFIX_VOICE.toList.length).asString
    ({ st with user_selected_voice := mapSet st.user_selected_voice user voice_name },
      .voiceSet voice_name)
  else (st, .unknownAction)

/-- Voice resolution of `handle_text` (tbot.py lines 156-165).
`user_selected_voice.get(user_id)` yields None for a missing key, and the
Python test `if not selected_voice` is true both for None and for the
empty string, so both fall through to the first available voice and then
to the conceptual default. -/
def resolveVoice (sel : Option String) (available : List String) : String :=
  let selected := sel.getD ""
  if selected = "" then
    match available with
    | v :: _ => v
    | [] => DEFAULT_VOICE_NAME
  else selected

/-- Which reply `handle_text` produces. -/
inductive TextResult where
  | stillAwaitingUpload (pendingName : String)
  | speech (voice : String) (audio : String)
  | speechFailed (voice : String)
  deriving DecidableEq, Repr

/-- `handle_text` (tbot.py lines 143-173): a user with a pending
registration is reminded that an audio payload is expected, with no state
change and no synthesis; otherwise the effective voice is resolved and
the stub `tts` is invoked inside a try block (`ttsOk` models whether the
try block succeeds; on failure the user gets a generic failure reply and
no state changes either way). -/
def handle_text (st : BotState) (user : UserId) (text : String) (ttsOk : Bool) :
    BotState × TextResult :=
  match st.awaiting_voice_upload user with
  | some pending => (st, .stillAwaitingUpload pending)
  | none =>
    let selected := resolveVoice (st.user_selected_voice user) (get_available_voices st.voiceDir)
    if ttsOk then (st, .speech selected (tts selected text))
    else (st, .speechFailed selected)

/-- Which reply `handle_audio` produces. -/
inductive AudioResult where
  | notAwaiting
  | saved (name : String)
  | saveFailed (name : String)
  deriving DecidableEq, Repr

/-- Effect of a successful save in `handle_audio`:
`VOICE_DIR.mkdir(parents=True, exist_ok=True)` followed by
`download_to_drive(custom_path=VOICE_DIR/<name>.wav)`, which writes the
payload as a regular file, replacing any same-named entry. -/
def writeVoiceFile (d : VoiceDir) (filename : String) : VoiceDir :=
  { present := true, accessible := d.accessible,
    entries := (d.entries.filter fun e => decide (e.name ≠ filename)) ++ [⟨filename, true⟩] }

/-- `handle_audio` (tbot.py lines 175-222): a user with no pending
registration is told to use /newvoice first, with no state change.
Otherwise the pending entry is removed with `awaiting_voice_upload.pop`
BEFORE the try block; on success the payload is saved as
`<name>.wav`; on failure (modelled at `get_file`, which raises before any
filesystem change) the user is asked to try again, and the re-insertion
of the pending entry is commented out in the source, so the popped entry
stays gone.  (The message filter `filters.VOICE | filters.AUDIO`
guarantees an audio part is present, and the non-WAV-document branch only
logs and proceeds.) -/
def handle_audio (st : BotState) (user : UserId) (ioOk : Bool) : BotState × AudioResult :=
  match st.awaiting_voice_upload user with
  | none => (st, .notAwaiting)
  | some voice_name =>
    let st1 := { st with awaiting_voice_upload := mapPop st.awaiting_voice_upload user }
    if ioOk then
      ({ st1 with voiceDir := writeVoiceFile st1.voiceDir (voice_name ++ ".wav") },
        .saved voice_name)
    else (st1, .saveFailed voice_name)

/-- The everywhere-empty user map. -/
def emptyMap : UserId → Option String := fun _ => none

/-- An existing, readable, empty voice directory. -/
def dirEmpty : VoiceDir := ⟨true, true, []⟩

/-- Fresh bot state over an empty catalog. -/
def st0 : BotState := ⟨emptyMap, emptyMap, dirEmpty⟩

/-- A state in which user 7 has the pending registration "MyVoice". -/
def stAwaitMyVoice : BotState := ⟨emptyMap, mapSet emptyMap 7 "MyVoice", dirEmpty⟩

/-- A state whose catalog directory holds the single regular file
`Alice.WAV`. -/
def stAliceUpper : BotState := ⟨emptyMap, emptyMap, ⟨true, true, [⟨"Alice.WAV", true⟩]⟩⟩

/-- A directory with one matching file, one subdirectory with a matching
name, and one non-matching file. -/
def dirMixed : VoiceDir := ⟨true, true, [⟨"alice.wav", true⟩, ⟨"sub.wav", false⟩, ⟨"notes.txt", true⟩]⟩

/-- A state in which user 7 holds an explicit selection-map entry for the
empty string (stored by a button press whose callback data is exactly
`select_voice:`) over a catalog holding alice. -/
def stEmptySel : BotState := ⟨mapSet emptyMap 7 "", emptyMap, ⟨true, true, [⟨"alice.wav", true⟩]⟩⟩

/-- Helper: the recursive regex-substitution pass equals a list filter. -/
theorem pySubNonWord_eq_filter (l : List Char) :
    pySubNonWord l = l.filter fun c => pyIsWordChar c || decide (c = '-') := by
  induction l with
  | nil => rfl
  | cons c cs ih => by_cases h : (pyIsWordChar c || decide (c = '-')) = true <;>
      simp [pySubNonWord, h, ih, List.filter]

/-- Claim C3, amended: on inputs within the code-point range where the
word-character table is exact (U+0000 to U+00FF), `sanitize_voice_name`
returns the input with every character removed that is not a word
character in Python's Unicode-aware sense (`pyIsWordChar`) or a hyphen,
truncated to at most 50 characters.  Non-ASCII word characters survive,
so the original ASCII-only reading is refuted by
`sanitize_nonascii_cex`. -/
theorem sanitize_voice_name_spec (name : String)
    (_h : ∀ c ∈ name.toList, c.toNat < 0x100) :
    (sanitize_voice_name name).toList =
      (name.toList.filter fun c => pyIsWordChar c || decide (c = '-')).take 50 ∧
    (sanitize_voice_name name).toList.length ≤ 50 := by
  constructor
  · show ((pySubNonWord name.toList).take 50).asString.toList = _
    rw [pySubNonWord_eq_filter]
    rfl
  · show ((pySubNonWord name.toList).take 50).asString.toList.length ≤ 50
    have h2 : ((pySubNonWord name.toList).take 50).asString.toList =
        (pySubNonWord name.toList).take 50 := rfl
    rw [h2, List.length_take]
    exact min_le_left _ _

/-- Claim C7: for every user not in the AwaitingUpload state, an inbound
audio payload is answered with the no-registration-in-progress guidance
and the whole state (both maps and the voice directory) is returned
unchanged, so no file is written. -/
theorem handle_audio_not_awaiting_frame (st : BotState) (u : UserId) (ioOk : Bool)
    (h : st.awaiting_voice_upload u = none) :
    handle_audio st u ioOk = (st, AudioResult.notAwaiting) := by
  unfold handle_audio
  rw [h]

/-- Claim C8: for every user in state AwaitingUpload(name), an ordinary
text message leaves the whole state unchanged, produces the
audio-expected reminder naming the pending voice, and does not reach
speech synthesis (the result is not a speech result). -/
theorem handle_text_awaiting_frame (st : BotState) (u : UserId) (text : String) (ttsOk : Bool)
    (name : String) (h : st.awaiting_voice_upload u = some name) :
    handle_text st u text ttsOk = (st, TextResult.stillAwaitingUpload name) := by
  unfold handle_text
  rw [h]

/-- Claim C9, amended: the stubbed TTS function ignores its text argument
entirely, but its output does depend on the voice name: it is the fixed
placeholder prefix followed by the voice name.  The original claim that
the output is independent of both inputs is refuted by
`tts_depends_on_voice_cex`. -/
theorem tts_ignores_text (v t1 t2 : String) :
    tts v t1 = tts v t2 ∧ tts v t1 = "FAKE_AUDIO_FOR_" ++ v :=
  ⟨rfl, rfl⟩

/-- Claim C10: a voice-selection button press writes only the pressing
user's entry of the selection map: the pending-registration map and the
voice directory are unchanged, every other user's selection is unchanged,
and a user in AwaitingUpload(name) remains in AwaitingUpload(name). -/
theorem button_handler_frame (st : BotState) (u : UserId) (data : String) :
    (button_handler st u data).1.awaiting_voice_upload = st.awaiting_voice_upload ∧
    (button_handler st u data).1.voiceDir = st.voiceDir ∧
    (∀ u2, u2 ≠ u →
      (button_handler st u data).1.user_selected_voice u2 = st.user_selected_voice u2) ∧
    (∀ name, st.awaiting_voice_upload u = some name →
      (button_handler st u data).1.awaiting_voice_upload u = some name) := by
  unfold button_handler
  split
  · refine ⟨rfl, rfl, ?_, fun _ hn => hn⟩
    intro u2 h2
    simp [mapSet, h2]
  · exact ⟨rfl, rfl, fun _ _ => rfl, fun _ hn => hn⟩

/-- Claim C6: the catalog listing (a total function, so it never raises)
returns the empty sequence when the storage location is missing or
inaccessible, and otherwise returns exactly the filename stems of the
regular files whose suffix matches `.wav` case-insensitively,
subdirectories and non-matching files excluded. -/
theorem get_available_voices_spec (d : VoiceDir) :
    (d.present = false → get_available_voices d = []) ∧
    (d.accessible = false → get_available_voices d = []) ∧
    (d.present = true → d.accessible = true →
      ∀ v, v ∈ get_available_voices d ↔
        ∃ e ∈ d.entries, e.isFile = true ∧ strLower (pySuffix e.name) = ".wav" ∧
          pyStem e.name = v) := by
  refine ⟨?_, ?_, ?_⟩
  · intro h; simp [get_available_voices, h]
  · intro h; simp [get_available_voices, h]
  · intro hp ha v
    simp [get_available_voices, hp, ha, List.mem_map, List.mem_filter]
    constructor
    · rintro ⟨e, ⟨he, hf, hs⟩, hst⟩
      exact ⟨e, he, hf, hs, hst⟩
    · rintro ⟨e, he, hf, hs, hst⟩
      exact ⟨e, ⟨he, hf, hs⟩, hst⟩

/-- Claim C4, amended: voice resolution follows the order (1) the
explicit selection when one exists AND is non-empty, (2) otherwise the
first catalog entry when the listing is non-empty, (3) otherwise the
conceptual default name.  An empty-string selection is skipped by the
Python falsiness test, refuting the original claim
(`resolveVoice_empty_selection_cex`). -/
theorem resolveVoice_order (sel : Option String) (available : List String) :
    (∀ s, sel = some s → s ≠ "" → resolveVoice sel available = s) ∧
    ((sel = none ∨ sel = some "") →
      ∀ v rest, available = v :: rest → resolveVoice sel available = v) ∧
    ((sel = none ∨ sel = some "") → available = [] →
      resolveVoice sel available = DEFAULT_VOICE_NAME) := by
  refine ⟨?_, ?_, ?_⟩
  · intro s hs hne
    subst hs
    simp [resolveVoice, hne]
  · rintro (h | h) v rest hav <;> subst h <;> subst hav <;> simp [resolveVoice]
  · rintro (h | h) hav <;> subst h <;> subst hav <;> simp [resolveVoice]

/-- Helper: exact characterization of when register succeeds. -/
theorem newvoice_ok_iff (st : BotState) (u : UserId) (args : List String) (name : String) :
    (newvoice_command st u args).2 = RegisterResult.ok name ↔
      (args ≠ [] ∧ name = sanitize_voice_name (String.intercalate " " args) ∧ name ≠ "" ∧
        pathExists st.voiceDir (name ++ ".wav") = false) := by
  simp only [newvoice_command]
  split_ifs with h1 h2 h3
  · simp [h1]
  · constructor
    · intro h; cases h
    · rintro ⟨-, hn, hne, -⟩
      exact absurd (hn.trans h2) hne
  · constructor
    · intro h; cases h
    · rintro ⟨-, hn, -, hpe⟩
      rw [hn, h3] at hpe
      exact Bool.noConfusion hpe
  · constructor
    · intro h
      cases h
      exact ⟨h1, rfl, h2, Bool.eq_false_iff.mpr h3⟩
    · rintro ⟨-, hn, -, -⟩
      rw [hn]

/-- Helper: the state after a successful register. -/
theorem newvoice_ok_state (st : BotState) (u : UserId) (args : List String) (name : String)
    (h : (newvoice_command st u args).2 = RegisterResult.ok name) :
    (newvoice_command st u args).1 =
      { st with awaiting_voice_upload := mapSet st.awaiting_voice_upload u name } := by
  obtain ⟨h1, hn, hne, hpe⟩ := (newvoice_ok_iff st u args name).mp h
  simp only [newvoice_command]
  split_ifs with g1 g2 g3
  · exact absurd g1 h1
  · exact absurd (hn.trans g2) hne
  · rw [hn, g3] at hpe
    exact Bool.noConfusion hpe
  · rw [hn]

/-- Helper: a rejected register leaves the state untouched. -/
theorem newvoice_reject_state (st : BotState) (u : UserId) (args : List String)
    (h : ∀ name, (newvoice_command st u args).2 ≠ RegisterResult.ok name) :
    (newvoice_command st u args).1 = st := by
  simp only [newvoice_command] at h ⊢
  split_ifs at h ⊢ with g1 g2 g3
  · rfl
  · rfl
  · rfl
  · exact absurd rfl (h (sanitize_voice_name (String.intercalate " " args)))

/-- Helper: character list of a name with the wav extension appended. -/
theorem toList_append_wav (name : String) :
    (name ++ ".wav").toList = name.toList ++ ('.' :: 'w' :: 'a' :: 'v' :: []) := by
  cases name
  rfl

/-- Helper: the last dot of `name + ".wav"` sits at position `|name|`. -/
theorem lastDotIdx_append_wav (l : List Char) :
    lastDotIdx (l ++ ('.' :: 'w' :: 'a' :: 'v' :: [])) = some l.length := by
  induction l with
  | nil => rfl
  | cons c cs ih => simp only [List.cons_append, lastDotIdx, List.append_eq, ih,
      List.length_cons]

/-- Helper: a non-empty string has a non-empty character list. -/
theorem toList_ne_nil_of_ne_empty (name : String) (h : name ≠ "") : name.toList ≠ [] := by
  cases name with
  | mk l =>
    intro hl
    apply h
    rw [show l = [] from hl]

/-- Helper: the suffix of `name ++ ".wav"` for non-empty `name`. -/
theorem pySuffix_append_wav (name : String) (h : name ≠ "") :
    pySuffix (name ++ ".wav") = ".wav" := by
  have hl : name.toList ≠ [] := toList_ne_nil_of_ne_empty name h
  simp only [pySuffix]
  rw [toList_append_wav, lastDotIdx_append_wav]
  simp only [Option.getD_some]
  have hc : 0 < name.toList.length ∧
      name.toList.length < (name.toList ++ ('.' :: 'w' :: 'a' :: 'v' :: [])).length - 1 := by
    constructor
    · exact List.length_pos.mpr hl
    · simp
  rw [if_pos hc, List.drop_left]
  rfl

/-- Helper: the stem of `name ++ ".wav"` for non-empty `name`. -/
theorem pyStem_append_wav (name : String) (h : name ≠ "") :
    pyStem (name ++ ".wav") = name := by
  have hl : name.toList ≠ [] := toList_ne_nil_of_ne_empty name h
  simp only [pyStem]
  rw [toList_append_wav, lastDotIdx_append_wav]
  simp only [Option.getD_some]
  have hc : 0 < name.toList.length ∧
      name.toList.length < (name.toList ++ ('.' :: 'w' :: 'a' :: 'v' :: [])).length - 1 := by
    constructor
    · exact List.length_pos.mpr hl
    · simp
  rw [if_pos hc, List.take_left]
  cases name
  rfl

/-- Helper: a freshly written voice file appears in the catalog listing. -/
theorem mem_voices_after_write (d : VoiceDir) (name : String)
    (hne : name ≠ "") (hacc : d.accessible = true) :
    name ∈ get_available_voices (writeVoiceFile d (name ++ ".wav")) := by
  unfold get_available_voices writeVoiceFile
  simp only [hacc]
  apply List.mem_map.mpr
  refine ⟨⟨name ++ ".wav", true⟩, List.mem_filter.mpr ⟨?_, ?_⟩, pyStem_append_wav name hne⟩
  · simp [List.mem_append]
  · simp only [pySuffix_append_wav name hne]
    decide

/-- Helper: the written path exists afterwards. -/
theorem pathExists_after_write (d : VoiceDir) (f : String) :
    pathExists (writeVoiceFile d f) f = true := by
  simp [pathExists, writeVoiceFile]

/-- Claim C1, amended: when the upload fails, the pending entry (popped
before the try block and never re-inserted, the re-insertion being
commented out in the source) is CLEARED, not preserved: the user returns
to Idle and must re-issue the registration command; the selection map and
the voice directory are unchanged, so a name not listed before is still
not listed.  The original retry-preserving claim is refuted by
`upload_failure_pending_dropped_cex`. -/
theorem handle_audio_failure_clears_pending (st : BotState) (u : UserId) (name : String)
    (h : st.awaiting_voice_upload u = some name) :
    (handle_audio st u false).2 = AudioResult.saveFailed name ∧
    (handle_audio st u false).1.awaiting_voice_upload u = none ∧
    (handle_audio st u false).1.user_selected_voice = st.user_selected_voice ∧
    (handle_audio st u false).1.voiceDir = st.voiceDir ∧
    (name ∉ get_available_voices st.voiceDir →
      name ∉ get_available_voices (handle_audio st u false).1.voiceDir) := by
  unfold handle_audio
  rw [h]
  refine ⟨rfl, ?_, rfl, rfl, fun hm => hm⟩
  simp [mapPop]

/-- Claim C2: after a successful register (pending entry created for the
sanitized name) followed by a successful upload over an accessible
directory, the catalog listing contains the name, the file
`<name>.wav` exists in the catalog directory, and the user's pending
state is cleared back to Idle. -/
theorem register_then_upload_success (st : BotState) (u : UserId) (args : List String)
    (name : String) (hacc : st.voiceDir.accessible = true)
    (hok : (newvoice_command st u args).2 = RegisterResult.ok name) :
    (handle_audio (newvoice_command st u args).1 u true).2 = AudioResult.saved name ∧
    name ∈ get_available_voices (handle_audio (newvoice_command st u args).1 u true).1.voiceDir ∧
    pathExists (handle_audio (newvoice_command st u args).1 u true).1.voiceDir
      (name ++ ".wav") = true ∧
    (handle_audio (newvoice_command st u args).1 u true).1.awaiting_voice_upload u = none := by
  obtain ⟨-, -, hne, -⟩ := (newvoice_ok_iff st u args name).mp hok
  rw [newvoice_ok_state st u args name hok]
  unfold handle_audio
  have hmu : ({ st with awaiting_voice_upload := mapSet st.awaiting_voice_upload u name }).awaiting_voice_upload u = some name := by
    simp [mapSet]
  rw [hmu]
  refine ⟨rfl, ?_, ?_, ?_⟩
  · exact mem_voices_after_write st.voiceDir name hne hacc
  · exact pathExists_after_write st.voiceDir (name ++ ".wav")
  · simp [mapPop]

/-- Claim C5, amended: register creates a pending registration exactly
when the arguments are non-empty, the sanitized name is non-empty, and no
filesystem entry named exactly `<name>.wav` exists in the voice directory
(an exact-path existence check, NOT a catalog-membership check — the
difference is exhibited by `newvoice_catalog_collision_cex`).  On
success only the caller's pending entry changes; on any rejection the
state is untouched and the specific failure (usage, empty-after-
sanitization, name-already-taken) is reported distinctly. -/
theorem newvoice_register_spec (st : BotState) (u : UserId) (args : List String) :
    (∀ name, (newvoice_command st u args).2 = RegisterResult.ok name ↔
      (args ≠ [] ∧ name = sanitize_voice_name (String.intercalate " " args) ∧ name ≠ "" ∧
        pathExists st.voiceDir (name ++ ".wav") = false)) ∧
    (∀ name, (newvoice_command st u args).2 = RegisterResult.ok name →
      (newvoice_command st u args).1.awaiting_voice_upload u = some name ∧
      (newvoice_command st u args).1.user_selected_voice = st.user_selected_voice ∧
      (newvoice_command st u args).1.voiceDir = st.voiceDir) ∧
    ((∀ name, (newvoice_command st u args).2 ≠ RegisterResult.ok name) →
      (newvoice_command st u args).1 = st) ∧
    (args ≠ [] → sanitize_voice_name (String.intercalate " " args) = "" →
      (newvoice_command st u args).2 = RegisterResult.invalidName) ∧
    (args ≠ [] → sanitize_voice_name (String.intercalate " " args) ≠ "" →
      pathExists st.voiceDir (sanitize_voice_name (String.intercalate " " args) ++ ".wav") = true →
      (newvoice_command st u args).2 =
        RegisterResult.alreadyExists (sanitize_voice_name (String.intercalate " " args))) := by
  refine ⟨newvoice_ok_iff st u args, ?_, newvoice_reject_state st u args, ?_, ?_⟩
  · intro name hok
    rw [newvoice_ok_state st u args name hok]
    refine ⟨?_, rfl, rfl⟩
    simp [mapSet]
  · intro h1 h2
    simp [newvoice_command, h1, h2]
  · intro h1 h2 h3
    simp [newvoice_command, h1, h2, h3]

/-- Claim C1 counterexample: user 7 is in AwaitingUpload(MyVoice), the
upload fails, and afterwards the pending state is gone (none), not
AwaitingUpload(MyVoice) as the claim requires. -/
theorem upload_failure_pending_dropped_cex :
    stAwaitMyVoice.awaiting_voice_upload 7 = some "MyVoice" ∧
    (handle_audio stAwaitMyVoice 7 false).2 = AudioResult.saveFailed "MyVoice" ∧
    (handle_audio stAwaitMyVoice 7 false).1.awaiting_voice_upload 7 ≠ some "MyVoice" ∧
    (handle_audio stAwaitMyVoice 7 false).1.awaiting_voice_upload 7 = none := by
  decide

/-- Witness for the amended Claim C1 theorem at a concrete state. -/
theorem handle_audio_failure_clears_pending_witness :
    (handle_audio stAwaitMyVoice 7 false).2 = AudioResult.saveFailed "MyVoice" ∧
    (handle_audio stAwaitMyVoice 7 false).1.awaiting_voice_upload 7 = none ∧
    (handle_audio stAwaitMyVoice 7 false).1.user_selected_voice =
      stAwaitMyVoice.user_selected_voice ∧
    (handle_audio stAwaitMyVoice 7 false).1.voiceDir = stAwaitMyVoice.voiceDir ∧
    ("MyVoice" ∉ get_available_voices stAwaitMyVoice.voiceDir →
      "MyVoice" ∉ get_available_voices (handle_audio stAwaitMyVoice 7 false).1.voiceDir) :=
  handle_audio_failure_clears_pending stAwaitMyVoice 7 "MyVoice" rfl

/-- Witness for Claim C2 at the concrete scenario of the spec. -/
theorem register_then_upload_success_witness :
    (handle_audio (newvoice_command st0 7 ["My", "Voice!"]).1 7 true).2 =
      AudioResult.saved "MyVoice" ∧
    "MyVoice" ∈ get_available_voices
      (handle_audio (newvoice_command st0 7 ["My", "Voice!"]).1 7 true).1.voiceDir ∧
    pathExists (handle_audio (newvoice_command st0 7 ["My", "Voice!"]).1 7 true).1.voiceDir
      ("MyVoice" ++ ".wav") = true ∧
    (handle_audio (newvoice_command st0 7 ["My", "Voice!"]).1 7 true).1.awaiting_voice_upload 7 =
      none :=
  register_then_upload_success st0 7 ["My", "Voice!"] "MyVoice" rfl (by decide)

/-- Claim C3 counterexample: the non-ASCII letter e-acute survives the
source's sanitization because Python's `\\w` is Unicode-aware, while the
spec's ASCII-only rule would delete it. -/
theorem sanitize_nonascii_cex :
    sanitize_voice_name "é" = "é" ∧ sanitizeSpecAscii "é" = "" ∧
    ¬(∀ c ∈ (sanitize_voice_name "é").toList, c.toNat < 128) := by
  decide

/-- Witness for the amended Claim C3 theorem at a concrete input. -/
theorem sanitize_voice_name_spec_witness :
    (sanitize_voice_name "My Voice!").toList =
      ("My Voice!".toList.filter fun c => pyIsWordChar c || decide (c = '-')).take 50 ∧
    (sanitize_voice_name "My Voice!").toList.length ≤ 50 :=
  sanitize_voice_name_spec "My Voice!" (by decide)

/-- Claim C4 counterexample: user 7 has an explicit selection-map entry
(the empty string, stored by a `select_voice:` button payload), yet
resolution returns the catalog entry alice instead of the selection. -/
theorem resolveVoice_empty_selection_cex :
    stEmptySel.user_selected_voice 7 = some "" ∧
    (handle_text stEmptySel 7 "hi" true).2 = TextResult.speech "alice" (tts "alice" "hi") ∧
    resolveVoice (stEmptySel.user_selected_voice 7) (get_available_voices stEmptySel.voiceDir) =
      "alice" ∧
    "alice" ≠ "" := by
  decide

/-- Witness for the amended Claim C4 theorem at concrete inputs. -/
theorem resolveVoice_order_witness :
    resolveVoice (some "bob") ["alice"] = "bob" ∧
    resolveVoice none ["alice", "bob"] = "alice" ∧
    resolveVoice none [] = DEFAULT_VOICE_NAME :=
  ⟨(resolveVoice_order (some "bob") ["alice"]).1 "bob" rfl (by decide),
   (resolveVoice_order none ["alice", "bob"]).2.1 (Or.inl rfl) "alice" ["bob"] rfl,
   (resolveVoice_order none []).2.2 (Or.inl rfl) rfl⟩

/-- Claim C5 counterexample: with the catalog listing Alice (backed by
the file `Alice.WAV`), register(Alice) nevertheless succeeds and creates
a pending registration, because the collision check tests the exact path
`Alice.wav` and not catalog membership. -/
theorem newvoice_catalog_collision_cex :
    "Alice" ∈ get_available_voices stAliceUpper.voiceDir ∧
    sanitize_voice_name "Alice" = "Alice" ∧
    (newvoice_command stAliceUpper 7 ["Alice"]).2 = RegisterResult.ok "Alice" ∧
    (newvoice_command stAliceUpper 7 ["Alice"]).1.awaiting_voice_upload 7 = some "Alice" := by
  decide

/-- Witness for the amended Claim C5 theorem at a concrete input. -/
theorem newvoice_register_spec_witness :
    (newvoice_command st0 7 ["My", "Voice!"]).2 = RegisterResult.ok "MyVoice" ∧
    (newvoice_command st0 7 ["My", "Voice!"]).1.awaiting_voice_upload 7 = some "MyVoice" :=
  ⟨((newvoice_register_spec st0 7 ["My", "Voice!"]).1 "MyVoice").mpr (by decide),
   ((newvoice_register_spec st0 7 ["My", "Voice!"]).2.1 "MyVoice"
     (((newvoice_register_spec st0 7 ["My", "Voice!"]).1 "MyVoice").mpr (by decide))).1⟩

/-- Witness for the Claim C6 theorem at concrete directories. -/
theorem get_available_voices_spec_witness :
    ("alice" ∈ get_available_voices dirMixed ↔
      ∃ e ∈ dirMixed.entries, e.isFile = true ∧ strLower (pySuffix e.name) = ".wav" ∧
        pyStem e.name = "alice") ∧
    get_available_voices ⟨false, true, []⟩ = [] ∧
    get_available_voices ⟨true, false, [⟨"alice.wav", true⟩]⟩ = [] :=
  ⟨(get_available_voices_spec dirMixed).2.2 rfl rfl "alice",
   (get_available_voices_spec ⟨false, true, []⟩).1 rfl,
   (get_available_voices_spec ⟨true, false, [⟨"alice.wav", true⟩]⟩).2.1 rfl⟩

/-- Witness for the Claim C7 theorem at a concrete state. -/
theorem handle_audio_not_awaiting_frame_witness :
    handle_audio st0 7 true = (st0, AudioResult.notAwaiting) :=
  handle_audio_not_awaiting_frame st0 7 true rfl

/-- Witness for the Claim C8 theorem at a concrete state. -/
theorem handle_text_awaiting_frame_witness :
    handle_text stAwaitMyVoice 7 "hello" true =
      (stAwaitMyVoice, TextResult.stillAwaitingUpload "MyVoice") :=
  handle_text_awaiting_frame stAwaitMyVoice 7 "hello" true "MyVoice" rfl

/-- Claim C9 counterexample: two different voice names with the same
text give different stub TTS outputs, so the output is not a fixed byte
sequence independent of the input. -/
theorem tts_depends_on_voice_cex :
    tts "alice" "same text" ≠ tts "bob" "same text" := by
  decide

/-- Witness for the Claim C10 theorem at a concrete state. -/
theorem button_handler_frame_witness :
    (button_handler stAwaitMyVoice 7 "select_voice:bob").1.awaiting_voice_upload 7 =
      some "MyVoice" ∧
    (button_handler stAwaitMyVoice 7 "select_voice:bob").1.user_selected_voice 9 =
      stAwaitMyVoice.user_selected_voice 9 :=
  ⟨(button_handler_frame stAwaitMyVoice 7 "select_voice:bob").2.2.2 "MyVoice" rfl,
   (button_handler_frame stAwaitMyVoice 7 "select_voice:bob").2.2.1 9 (by decide)⟩
